import Mathlib

/-!
Verification of the RAG-FASTAPI repository (src/main.py, src/test.py).

The repository is glue code connecting an embedding service, a vector
database and a language model. The two Python files are shallowly embedded
here: external calls (embedding service, vector database, generation) are
represented by oracle records whose fields give the outcome of each call,
and the module-level / function-level control flow of the source is
translated into total Lean functions over those oracles. Python exceptions
are represented explicitly, and string formatting is modelled on the
character list underlying a string.
-/

namespace RagFastapi

/-- Python exceptions that can arise in the embedded code paths. The
`nameError` constructor stands for the NameError raised when the module
global `query_engine` was never assigned because setup failed; `raised n`
stands for an arbitrary exception (tagged by a number) thrown by one of
the external collaborators. -/
inductive PyExc where
  | nameError : PyExc
  | raised : Nat → PyExc
deriving DecidableEq, Repr

/-- Truthiness of an `os.getenv` result in Python: `None` is falsy and the
empty string is falsy; every other string is truthy. -/
def pyTruthy : Option String → Bool
  | none => false
  | some s => !s.isEmpty

/-- Embedding of the environment-variable check shared by src/main.py
lines 19-28 and src/test.py lines 17-23: the Python code computes
`not all([COHERE_API_KEY, QDRANT_URL, QDRANT_API_KEY])`, i.e. the
missing-configuration branch is taken when any of the three values is
falsy. -/
def envVarsMissing (cohereKey qdrantUrl qdrantKey : Option String) : Bool :=
  !(pyTruthy cohereKey && pyTruthy qdrantUrl && pyTruthy qdrantKey)

/-- Embedding of the pydantic model QueryRequest of src/main.py lines
13-14: a single required string field `question`. -/
structure QueryRequest where
  question : String
deriving DecidableEq, Repr

/-- Embedding of the JSON body at src/main.py line 101: the handler
returns the dictionary with the single key `answer`. -/
structure QueryResponse where
  answer : String
deriving DecidableEq, Repr

/-- The replacement text used at src/main.py line 100. -/
def brMarker : String := "<br>"

/-- Character-level embedding of the Python call
`raw_text.replace(chr(10), marker)` for the single-character newline
pattern: every occurrence of the newline character in the input is
replaced by the marker; all other characters are kept. -/
def replaceNLChars : List Char → List Char
  | [] => []
  | c :: cs => (if c = '\n' then brMarker.data else [c]) ++ replaceNLChars cs

/-- Embedding of src/main.py line 100: the formatted text returned in the
`answer` field. -/
def pyReplaceNewlineBr (s : String) : String :=
  String.mk (replaceNLChars s.data)

/-- The query engine built at src/main.py line 84, abstracted over its
external behaviour: given the question string it either returns the
string form of the response object (src/main.py line 99) or raises. -/
def QueryEngine : Type := String → Except PyExc String

/-- The module-level mutable state of src/main.py that the request
handlers read: the global `query_engine`, which is `none` exactly when the
setup block of lines 53-88 did not reach line 84. -/
structure AppState where
  queryEngine : Option QueryEngine

/-- Embedding of the handler `handle_query` of src/main.py lines 96-101.
There is no try/except in the handler: if `query_engine` was never
assigned, referencing it raises NameError, and an exception raised by
`query_engine.query` propagates out of the handler; both are modelled by
the `Except.error` result. On success the handler returns the dictionary
with the formatted answer. -/
def handle_query (st : AppState) (request : QueryRequest) : Except PyExc QueryResponse :=
  match st.queryEngine with
  | none => Except.error PyExc.nameError
  | some qe =>
    match qe request.question with
    | Except.error e => Except.error e
    | Except.ok raw => Except.ok { answer := pyReplaceNewlineBr raw }

/-- The JSON body returned by `read_root` at src/main.py line 94: a
dictionary with the single key `message`. -/
structure RootResponse where
  message : String
deriving DecidableEq, Repr

/-- Embedding of the handler `read_root` of src/main.py lines 92-94: it
takes no input, reads no state, performs no effect, and returns a constant
payload. -/
def read_root : RootResponse :=
  { message := "Welcome to the RAG Chatbot API! Setup is complete." }

/-- Modelled from the spec: FastAPI serving of `GET /`. The route of
src/main.py line 92 binds the path to `read_root`, which takes no
arguments, so the framework invokes it regardless of the application
state and wraps the returned dictionary in a 200 response. -/
def getRootEndpoint (_st : AppState) : Nat × RootResponse :=
  (200, read_root)

/-- A JSON value, as far as the query endpoint needs one. -/
inductive JsonValue where
  | jstr : String → JsonValue
  | jnum : Int → JsonValue
  | jnull : JsonValue
deriving DecidableEq, Repr

/-- A JSON object body: a list of key/value pairs. -/
def JsonBody : Type := List (String × JsonValue)

/-- First string value bound to the key, if any. -/
def lookupStr : JsonBody → String → Option String
  | [], _ => none
  | (k, v) :: rest, key =>
    if k = key then
      match v with
      | JsonValue.jstr s => some s
      | _ => none
    else lookupStr rest key

/-- Modelled from the spec: pydantic validation of a request body against
the QueryRequest model of src/main.py lines 13-14. The model declares the
single field `question : str` with no default, so validation succeeds
exactly when the body carries a string under the key `question`. -/
def validateQueryRequest (body : JsonBody) : Option QueryRequest :=
  match lookupStr body "question" with
  | some s => some { question := s }
  | none => none

/-- Outcome of a `POST /query` request as seen by the transport layer. -/
inductive HttpOutcome where
  | ok : Nat → QueryResponse → HttpOutcome
  | validationError : Nat → HttpOutcome
  | unhandledError : PyExc → HttpOutcome
deriving Repr

/-- Modelled from the spec: FastAPI serving of `POST /query`. The body is
validated against QueryRequest before the handler runs; a validation
failure is rejected with status 422 and the handler is never invoked. A
valid body is passed to `handle_query`; a normal return becomes a 200
response, while an exception escaping the handler (which has no
try/except) propagates to the transport layer as an unhandled error. -/
def postQueryEndpoint (st : AppState) (body : JsonBody) : HttpOutcome :=
  match validateQueryRequest body with
  | none => HttpOutcome.validationError 422
  | some req =>
    match handle_query st req with
    | Except.ok r => HttpOutcome.ok 200 r
    | Except.error e => HttpOutcome.unhandledError e

/-- Configuration passed to the CohereEmbedding constructor, restricted
to the fields the sources set besides the API key: the model name and the
optional `input_type` mode tag. -/
structure CohereEmbeddingCfg where
  model_name : String
  input_type : Option String
deriving DecidableEq, Repr

/-- Embedding of src/main.py lines 55-58: the Query Service constructs
its embedder with only a model name; no `input_type` argument is passed. -/
def embed_model : CohereEmbeddingCfg :=
  { model_name := "embed-english-v3.0", input_type := none }

/-- Embedding of src/test.py lines 55-59: the ingestion embedder. -/
def ingest_embed_model : CohereEmbeddingCfg :=
  { model_name := "embed-english-v3.0", input_type := some "search_document" }

/-- Embedding of src/test.py lines 77-81: the embedder the ingestion job
builds its own query engine with. -/
def query_embed_model : CohereEmbeddingCfg :=
  { model_name := "embed-english-v3.0", input_type := some "search_query" }

/-- Events printed by the setup block of src/main.py lines 53-88 that the
claims are about. -/
inductive SetupLog where
  | fatalSetupError : PyExc → SetupLog
  | setupComplete : SetupLog
deriving DecidableEq, Repr

/-- Oracle for the external calls made inside the setup try block of
src/main.py lines 53-85, in source order: construction of the embedder
(line 55), of the qdrant client (line 60), of the vector store (line 65),
of the storage context (line 70), of the index (line 74), of the LLM
(line 80) and of the query engine (line 84). Each field is `none` when
the call returns normally and `some e` when it raises `e`; `engine` is
the behaviour of the query engine produced when every call succeeds. -/
structure SetupWorld where
  embedFail : Option PyExc
  clientFail : Option PyExc
  storeFail : Option PyExc
  contextFail : Option PyExc
  indexFail : Option PyExc
  llmFail : Option PyExc
  engineFail : Option PyExc
  engine : QueryEngine

/-- The stage outcomes of the setup try block in the order the source
executes them. -/
def setupStages (w : SetupWorld) : List (Option PyExc) :=
  [w.embedFail, w.clientFail, w.storeFail, w.contextFail,
   w.indexFail, w.llmFail, w.engineFail]

/-- The first raised exception in a sequence of stage outcomes; the
stages after it never run. -/
def firstFailure : List (Option PyExc) → Option PyExc
  | [] => none
  | none :: rest => firstFailure rest
  | some e :: _ => some e

/-- Result of running the module-level setup of src/main.py lines 53-88. -/
structure SetupResult where
  state : AppState
  log : List SetupLog

/-- Embedding of the setup try/except of src/main.py lines 53-88: the
statements of the try block run in order and the first exception aborts
the block; the except clause at lines 87-88 catches any exception and
prints a FATAL ERROR line, after which the module continues (the process
does not crash) with the global `query_engine` never assigned. Only when
every stage succeeds is `query_engine` bound, at line 84, and the
completion line printed. -/
def runSetup (w : SetupWorld) : SetupResult :=
  match firstFailure (setupStages w) with
  | some e => { state := { queryEngine := none }, log := [SetupLog.fatalSetupError e] }
  | none => { state := { queryEngine := some w.engine }, log := [SetupLog.setupComplete] }

/-- Events printed by `run_rag_test` of src/test.py, in the order the
source prints them; each constructor corresponds to one print statement. -/
inductive JobLog where
  | envError : JobLog
  | envLoaded : JobLog
  | connected : JobLog
  | deletingOld : JobLog
  | deletedOld : JobLog
  | deleteWarning : JobLog
  | loadedDocs : Nat → JobLog
  | loadError : PyExc → JobLog
  | ingesting : JobLog
  | ingestionComplete : JobLog
  | engineReady : JobLog
  | botAnswer : String → JobLog
deriving DecidableEq, Repr

/-- How a run of `run_rag_test` ends: a normal return of the Python
function (either an early `return` or falling off the end), or an
exception propagating out of the function uncaught. -/
inductive JobOutcome where
  | returned : JobOutcome
  | uncaught : PyExc → JobOutcome
deriving DecidableEq, Repr

/-- Oracle for the external calls of src/test.py, in source order: the
three environment reads (lines 17-19), connection to qdrant (line 28),
`delete_collection` (line 37), `SimpleDirectoryReader(...).load_data()`
(lines 44-47, yielding the list of loaded documents), the chunking the
document loader and index apply to each document, the embed-and-write of
`VectorStoreIndex.from_documents` (lines 63-68), the construction of the
query engine (lines 77-89) and the final test query (line 98). Documents
and chunks are abstracted as strings. -/
structure IngestWorld where
  cohereKey : Option String
  qdrantUrl : Option String
  qdrantKey : Option String
  connectFail : Option PyExc
  deleteFail : Option PyExc
  loadResult : Except PyExc (List String)
  chunk : String → List String
  ingestFail : Option PyExc
  engineFail : Option PyExc
  queryResult : Except PyExc String

/-- The state of the vector collection named `second`: `none` when no
collection of that name exists, otherwise the chunks it stores. -/
def Collection : Type := Option (List String)

/-- Result of one run of `run_rag_test`. -/
structure JobResult where
  log : List JobLog
  outcome : JobOutcome
  collection : Collection

/-- Embedding of `run_rag_test` of src/test.py lines 11-101. The
environment check at lines 21-23 returns early on missing variables. The
`delete_collection` call at line 37 sits in a try/except (lines 35-40):
on success the collection is gone, on an exception a warning is printed
and the run continues with the collection untouched. Document loading
(lines 43-51) sits in a try/except whose except clause prints an error
and returns. `VectorStoreIndex.from_documents` (lines 63-68) writes the
chunks of every loaded document into the collection, creating it if
absent; no try/except guards it, nor the engine construction (lines
73-91) or the test query (line 98), so an exception there propagates out
of the function. The success line at line 69 is printed only after the
write returns. -/
def run_rag_test (w : IngestWorld) (coll : Collection) : JobResult :=
  if envVarsMissing w.cohereKey w.qdrantUrl w.qdrantKey then
    { log := [JobLog.envError], outcome := JobOutcome.returned, collection := coll }
  else
    match w.connectFail with
    | some e =>
      { log := [JobLog.envLoaded], outcome := JobOutcome.uncaught e, collection := coll }
    | none =>
      let afterDelete : List JobLog × Collection :=
        match w.deleteFail with
        | none => ([JobLog.deletedOld], none)
        | some _ => ([JobLog.deleteWarning], coll)
      let log1 := [JobLog.envLoaded, JobLog.connected, JobLog.deletingOld] ++ afterDelete.1
      match w.loadResult with
      | Except.error e =>
        { log := log1 ++ [JobLog.loadError e], outcome := JobOutcome.returned,
          collection := afterDelete.2 }
      | Except.ok docs =>
        let log2 := log1 ++ [JobLog.loadedDocs docs.length, JobLog.ingesting]
        match w.ingestFail with
        | some e =>
          { log := log2, outcome := JobOutcome.uncaught e, collection := afterDelete.2 }
        | none =>
          let written : Collection :=
            some ((afterDelete.2.getD []) ++ docs.flatMap w.chunk)
          let log3 := log2 ++ [JobLog.ingestionComplete]
          match w.engineFail with
          | some e =>
            { log := log3, outcome := JobOutcome.uncaught e, collection := written }
          | none =>
            match w.queryResult with
            | Except.error e =>
              { log := log3 ++ [JobLog.engineReady], outcome := JobOutcome.uncaught e,
                collection := written }
            | Except.ok ans =>
              { log := log3 ++ [JobLog.engineReady, JobLog.botAnswer ans],
                outcome := JobOutcome.returned, collection := written }

/-! Concrete fixtures used to instantiate the theorems below. -/

/-- A query engine that answers every question with a fixed two-line
string. -/
def demoEngine : QueryEngine := fun _ => Except.ok "line one\nline two"

/-- A query engine whose query call raises. -/
def raisingEngine : QueryEngine := fun _ => Except.error (PyExc.raised 7)

/-- The application state after a successful setup. -/
def demoState : AppState := { queryEngine := some demoEngine }

/-- The application state after a failed setup: the global query engine
was never assigned. -/
def noEngineState : AppState := { queryEngine := none }

/-- A setup oracle whose first stage (the embedder constructor) raises. -/
def failingSetupWorld : SetupWorld :=
  { embedFail := some (PyExc.raised 1), clientFail := none, storeFail := none,
    contextFail := none, indexFail := none, llmFail := none, engineFail := none,
    engine := demoEngine }

/-- An ingestion oracle where only the collection deletion raises and the
rest of the run succeeds. -/
def deleteFailWorld : IngestWorld :=
  { cohereKey := some "co-key", qdrantUrl := some "https://qdrant.example",
    qdrantKey := some "qd-key", connectFail := none,
    deleteFail := some (PyExc.raised 2),
    loadResult := Except.ok ["special_vishal.pdf"],
    chunk := fun d => [d], ingestFail := none, engineFail := none,
    queryResult := Except.ok "Acne is a skin condition" }

/-- An ingestion oracle where the document load raises. -/
def loadFailWorld : IngestWorld :=
  { cohereKey := some "co-key", qdrantUrl := some "https://qdrant.example",
    qdrantKey := some "qd-key", connectFail := none, deleteFail := none,
    loadResult := Except.error (PyExc.raised 3),
    chunk := fun d => [d], ingestFail := none, engineFail := none,
    queryResult := Except.ok "Acne is a skin condition" }

/-- An ingestion oracle for a fully successful run. -/
def cleanRunWorld : IngestWorld :=
  { cohereKey := some "co-key", qdrantUrl := some "https://qdrant.example",
    qdrantKey := some "qd-key", connectFail := none, deleteFail := none,
    loadResult := Except.ok ["special_vishal.pdf"],
    chunk := fun d => [d ++ " chunk 1", d ++ " chunk 2"],
    ingestFail := none, engineFail := none,
    queryResult := Except.ok "Acne is a skin condition" }

/-! Theorems. -/

/-- The marker inserted at src/main.py line 100 contains no newline, so
the replacement leaves no newline character in its output. -/
theorem newline_not_mem_replaceNLChars (cs : List Char) : '\n' ∉ replaceNLChars cs := by
  induction cs with
  | nil => simp [replaceNLChars]
  | cons c rest ih =>
    simp only [replaceNLChars, List.mem_append]
    intro h
    rcases h with h | h
    · by_cases hc : c = '\n'
      · rw [if_pos hc] at h
        exact absurd h (by decide)
      · rw [if_neg hc] at h
        simp at h
        exact hc h.symm
    · exact ih h

/-- C1: when the query engine exists and its call on the question returns
an answer string, the handler passes the question unmodified to the
engine and POST /query returns 200 with body answer = the engine output
with every newline replaced by the br marker; the returned text holds no
raw newline character. -/
theorem c1_query_success (st : AppState) (qe : QueryEngine) (q raw : String)
    (hqe : st.queryEngine = some qe) (hraw : qe q = Except.ok raw) :
    handle_query st { question := q } = Except.ok { answer := pyReplaceNewlineBr raw } ∧
    postQueryEndpoint st [("question", JsonValue.jstr q)] =
      HttpOutcome.ok 200 { answer := pyReplaceNewlineBr raw } ∧
    '\n' ∉ (pyReplaceNewlineBr raw).data := by
  have hh : handle_query st { question := q } = Except.ok { answer := pyReplaceNewlineBr raw } := by
    simp [handle_query, hqe, hraw]
  refine ⟨hh, ?_, ?_⟩
  · simp [postQueryEndpoint, validateQueryRequest, lookupStr, hh]
  · exact newline_not_mem_replaceNLChars raw.data

/-- Witness for C1 at a concrete state, question and answer. -/
theorem c1_query_success_witness :
    handle_query demoState { question := "what is acne?" } =
      Except.ok { answer := pyReplaceNewlineBr "line one\nline two" } ∧
    postQueryEndpoint demoState [("question", JsonValue.jstr "what is acne?")] =
      HttpOutcome.ok 200 { answer := pyReplaceNewlineBr "line one\nline two" } ∧
    '\n' ∉ (pyReplaceNewlineBr "line one\nline two").data :=
  c1_query_success demoState demoEngine "what is acne?" "line one\nline two" rfl rfl

/-- C2 (code bug): at the failing inputs — the setup-failed state, and a
state whose engine raises on query — the endpoint lets the exception
escape the handler to the transport layer instead of returning a
structured error response, because handle_query of src/main.py lines
96-101 wraps nothing in try/except. -/
theorem c2_unhandled_exception_bug :
    postQueryEndpoint noEngineState [("question", JsonValue.jstr "what is acne?")] =
      HttpOutcome.unhandledError PyExc.nameError ∧
    postQueryEndpoint { queryEngine := some raisingEngine }
        [("question", JsonValue.jstr "what is acne?")] =
      HttpOutcome.unhandledError (PyExc.raised 7) :=
  ⟨rfl, rfl⟩

/-- C3 (counterexample): the serving path of src/main.py constructs its
embedder with no mode tag at all, refuting the claim that it passes the
query mode tag search_query. -/
theorem c3_counterexample : ¬ embed_model.input_type = some "search_query" := by
  decide

/-- C3 (amended): all three embedder constructions share the model name
embed-english-v3.0; inside the ingestion job the ingest embedder carries
the tag search_document and the query embedder the tag search_query,
while the Query Service of src/main.py constructs its embedder without an
explicit mode tag. -/
theorem c3_amended :
    ingest_embed_model.model_name = embed_model.model_name ∧
    query_embed_model.model_name = embed_model.model_name ∧
    ingest_embed_model.input_type = some "search_document" ∧
    query_embed_model.input_type = some "search_query" ∧
    embed_model.input_type = none :=
  ⟨rfl, rfl, rfl, rfl, rfl⟩

/-- C4: any exception raised in the setup try block is caught and logged
as a FATAL ERROR line rather than crashing the module; afterwards the
query engine global is unbound and every subsequent query request fails
(raising NameError) rather than succeeding. -/
theorem c4_setup_failure (w : SetupWorld) (e : PyExc)
    (h : firstFailure (setupStages w) = some e) :
    (runSetup w).log = [SetupLog.fatalSetupError e] ∧
    (runSetup w).state.queryEngine = none ∧
    ∀ req : QueryRequest, handle_query (runSetup w).state req = Except.error PyExc.nameError := by
  simp [runSetup, h, handle_query]

/-- Witness for C4 at a concrete setup world whose first stage raises. -/
theorem c4_setup_failure_witness :
    (runSetup failingSetupWorld).log = [SetupLog.fatalSetupError (PyExc.raised 1)] ∧
    (runSetup failingSetupWorld).state.queryEngine = none ∧
    handle_query (runSetup failingSetupWorld).state { question := "what is acne?" } =
      Except.error PyExc.nameError := by
  have h := c4_setup_failure failingSetupWorld (PyExc.raised 1) rfl
  exact ⟨h.1, h.2.1, h.2.2 _⟩

/-- C5 (counterexample): a run in which the collection-deletion stage
fails while everything after it succeeds does not abort — its deletion
warning is followed by the ingestion-complete success line and a normal
return — refuting the claim that a failure of every ingestion stage
causes the job to abort without reporting success. -/
theorem c5_counterexample :
    JobLog.deleteWarning ∈ (run_rag_test deleteFailWorld none).log ∧
    JobLog.ingestionComplete ∈ (run_rag_test deleteFailWorld none).log ∧
    (run_rag_test deleteFailWorld none).outcome = JobOutcome.returned := by
  decide

/-- C5 (amended): a document-load failure is logged and the job returns
early without reporting success; an embedding/write failure aborts the
job without reporting success, by an uncaught exception rather than a
logged clean return; a deletion failure is only logged as a warning and
the job proceeds; and the success line is printed only when load and
embedding/write both succeeded. -/
theorem c5_stage_failures (w : IngestWorld) (coll : Collection) :
    (∀ e, w.loadResult = Except.error e →
      envVarsMissing w.cohereKey w.qdrantUrl w.qdrantKey = false →
      w.connectFail = none →
      JobLog.loadError e ∈ (run_rag_test w coll).log ∧
      (run_rag_test w coll).outcome = JobOutcome.returned ∧
      JobLog.ingestionComplete ∉ (run_rag_test w coll).log) ∧
    (∀ e docs, w.ingestFail = some e → w.loadResult = Except.ok docs →
      envVarsMissing w.cohereKey w.qdrantUrl w.qdrantKey = false →
      w.connectFail = none →
      (run_rag_test w coll).outcome = JobOutcome.uncaught e ∧
      JobLog.ingestionComplete ∉ (run_rag_test w coll).log) ∧
    (JobLog.ingestionComplete ∈ (run_rag_test w coll).log →
      w.ingestFail = none ∧ ∃ docs, w.loadResult = Except.ok docs) := by
  obtain ⟨ck, qu, qk, cf, df, lr, ch, igf, ef, qr⟩ := w
  cases henv : envVarsMissing ck qu qk <;>
    cases cf <;> cases df <;> cases lr <;> cases igf <;> cases ef <;> cases qr <;>
      simp_all [run_rag_test]

/-- Witness for C5 amended: the load-failure clause at a concrete world. -/
theorem c5_stage_failures_witness :
    JobLog.loadError (PyExc.raised 3) ∈ (run_rag_test loadFailWorld none).log ∧
    (run_rag_test loadFailWorld none).outcome = JobOutcome.returned ∧
    JobLog.ingestionComplete ∉ (run_rag_test loadFailWorld none).log :=
  (c5_stage_failures loadFailWorld none).1 (PyExc.raised 3) rfl rfl rfl

/-- C6: when the collection does not exist and its deletion raises, the
exception is caught and logged as a warning and the job still loads the
documents, ingests them and reports completion, writing the chunks of
every loaded document to the collection. -/
theorem c6_delete_absence_tolerant (w : IngestWorld) (e : PyExc) (docs : List String)
    (hdel : w.deleteFail = some e)
    (henv : envVarsMissing w.cohereKey w.qdrantUrl w.qdrantKey = false)
    (hconn : w.connectFail = none)
    (hload : w.loadResult = Except.ok docs)
    (hing : w.ingestFail = none) :
    JobLog.deleteWarning ∈ (run_rag_test w none).log ∧
    JobLog.loadedDocs docs.length ∈ (run_rag_test w none).log ∧
    JobLog.ingestionComplete ∈ (run_rag_test w none).log ∧
    (run_rag_test w none).collection = some (docs.flatMap w.chunk) := by
  obtain ⟨ck, qu, qk, cf, df, lr, ch, igf, ef, qr⟩ := w
  simp only at hdel henv hconn hload hing
  subst hdel hconn hload hing
  cases ef <;> cases qr <;> simp_all [run_rag_test]

/-- Witness for C6 at a concrete world whose deletion raises. -/
theorem c6_delete_absence_tolerant_witness :
    JobLog.deleteWarning ∈ (run_rag_test deleteFailWorld none).log ∧
    JobLog.loadedDocs ([ "special_vishal.pdf" ].length) ∈ (run_rag_test deleteFailWorld none).log ∧
    JobLog.ingestionComplete ∈ (run_rag_test deleteFailWorld none).log ∧
    (run_rag_test deleteFailWorld none).collection =
      some (([ "special_vishal.pdf" ]).flatMap deleteFailWorld.chunk) :=
  c6_delete_absence_tolerant deleteFailWorld (PyExc.raised 2) ["special_vishal.pdf"]
    rfl rfl rfl rfl rfl

/-- C7: GET / takes no input, has no side effects, and returns the same
fixed 200 welcome payload whatever the application state, in particular
after any setup outcome. -/
theorem c7_root_constant :
    (∀ st : AppState, getRootEndpoint st = (200, read_root)) ∧
    (∀ w : SetupWorld, getRootEndpoint (runSetup w).state = (200, read_root)) ∧
    read_root.message = "Welcome to the RAG Chatbot API! Setup is complete." :=
  ⟨fun _ => rfl, fun _ => rfl, rfl⟩

/-- C8: with an effective deletion stage, rerunning the ingestion job
from the collection state the first run left behind yields the same
collection contents and the same printed log (hence the same document and
chunk counts) as the first run. -/
theorem c8_idempotent_rebuild (w : IngestWorld) (coll : Collection)
    (hdel : w.deleteFail = none) :
    (run_rag_test w (run_rag_test w coll).collection).collection =
      (run_rag_test w coll).collection ∧
    (run_rag_test w (run_rag_test w coll).collection).log = (run_rag_test w coll).log := by
  obtain ⟨ck, qu, qk, cf, df, lr, ch, igf, ef, qr⟩ := w
  simp only at hdel
  subst hdel
  cases henv : envVarsMissing ck qu qk <;>
    cases cf <;> cases lr <;> cases igf <;> cases ef <;> cases qr <;>
      simp_all [run_rag_test]

/-- Witness for C8 at a concrete fully successful world. -/
theorem c8_idempotent_rebuild_witness :
    (run_rag_test cleanRunWorld (run_rag_test cleanRunWorld none).collection).collection =
      (run_rag_test cleanRunWorld none).collection ∧
    (run_rag_test cleanRunWorld (run_rag_test cleanRunWorld none).collection).log =
      (run_rag_test cleanRunWorld none).log :=
  c8_idempotent_rebuild cleanRunWorld none rfl

/-- C9: a request body with no string field named question is rejected by
validation with status 422 — a 4xx — before the handler runs, whatever
the application state; in particular no unhandled error and no 500 is
produced. -/
theorem c9_missing_question (st : AppState) (body : JsonBody)
    (h : validateQueryRequest body = none) :
    postQueryEndpoint st body = HttpOutcome.validationError 422 ∧
    400 ≤ 422 ∧ 422 < 500 := by
  refine ⟨?_, by decide, by decide⟩
  simp [postQueryEndpoint, h]

/-- Witness for C9 at a concrete body carrying no question field. -/
theorem c9_missing_question_witness :
    postQueryEndpoint noEngineState [("q", JsonValue.jnum 3)] =
      HttpOutcome.validationError 422 ∧
    400 ≤ 422 ∧ 422 < 500 :=
  c9_missing_question noEngineState [("q", JsonValue.jnum 3)] rfl

/-- C10: the startup check fires exactly when one of the three
environment values is absent or set to the empty string, because the
source tests Python truthiness of the three values. -/
theorem c10_env_check_truthiness (c u k : Option String) :
    envVarsMissing c u k = true ↔
      (c = none ∨ c = some "") ∨ (u = none ∨ u = some "") ∨ (k = none ∨ k = some "") := by
  cases c <;> cases u <;> cases k <;>
    simp [envVarsMissing, pyTruthy, String.isEmpty_iff, or_assoc]

end RagFastapi
